import Mathlib

/-!
Shallow embedding of the weather-forecast Flask application (`app.py`).

Numeric fields coming from the provider are modelled as exact rationals;
the only non-rational operation in the source, `wind_speed_mph ** 0.16`,
is modelled over the reals with `Real.rpow`.  Python's `round` (banker's
rounding, ties to even) is modelled by `pyRound` on `ℚ` and `pyRoundR`
on `ℝ`.
-/

namespace WeatherApp

/-- Python's built-in `round` on an exact rational: nearest integer, ties to even. -/
def pyRound (q : ℚ) : ℤ :=
  let f : ℤ := ⌊q⌋
  if q - f < 1/2 then f
  else if 1/2 < q - f then f + 1
  else if Even f then f else f + 1

open Classical in
/-- Python's built-in `round` on a real argument: nearest integer, ties to even. -/
noncomputable def pyRoundR (x : ℝ) : ℤ :=
  let f : ℤ := ⌊x⌋
  if x - f < 1/2 then f
  else if 1/2 < x - f then f + 1
  else if Even f then f else f + 1

/-- When `x` lies strictly between `n - 1/2` and `n + 1/2`, Python rounding gives `n`. -/
theorem pyRoundR_eq_of_bounds (x : ℝ) (n : ℤ) (h1 : (n : ℝ) - 1/2 < x)
    (h2 : x < (n : ℝ) + 1/2) : pyRoundR x = n := by
  unfold pyRoundR
  rcases lt_or_le x n with hx | hx
  · have hfl : ⌊x⌋ = n - 1 := by
      apply Int.floor_eq_iff.mpr
      constructor
      · push_cast; linarith
      · push_cast; linarith
    rw [hfl]
    have hgt : 1/2 < x - ((n : ℤ) - 1 : ℤ) := by push_cast; linarith
    have hnlt : ¬ (x - ((n : ℤ) - 1 : ℤ) < 1/2) := by push_cast at hgt ⊢; linarith
    simp only [hnlt, if_false, hgt, if_true]
    omega
  · have hfl : ⌊x⌋ = n := by
      apply Int.floor_eq_iff.mpr
      constructor
      · linarith
      · linarith
    rw [hfl]
    have hlt : x - (n : ℤ) < 1/2 := by linarith
    simp only [hlt, if_true]

/-- Python rounding returns an integer within distance `1/2` of its argument. -/
theorem pyRound_dist (q : ℚ) : |q - (pyRound q : ℚ)| ≤ 1/2 := by
  unfold pyRound
  have h0 : (⌊q⌋ : ℚ) ≤ q := Int.floor_le q
  have h1 : q < (⌊q⌋ : ℚ) + 1 := Int.lt_floor_add_one q
  by_cases hlt : q - (⌊q⌋ : ℤ) < 1/2
  · simp only [hlt, if_true]
    rw [abs_le]; constructor <;> push_cast at hlt ⊢ <;> linarith
  · simp only [hlt, if_false]
    by_cases hgt : 1/2 < q - (⌊q⌋ : ℤ)
    · simp only [hgt, if_true]
      rw [abs_le]; constructor <;> push_cast at hgt ⊢ <;> linarith
    · simp only [hgt, if_false]
      have heq : q - (⌊q⌋ : ℚ) = 1/2 := by push_cast at hlt hgt ⊢; linarith
      by_cases hev : Even ⌊q⌋
      · simp only [hev, if_true]
        rw [abs_le]; constructor <;> linarith
      · simp only [hev, if_false]
        rw [abs_le]; constructor <;> push_cast <;> linarith

/-! Module-level constants of `app.py` (coefficients of the heat-index regression). -/

def C1 : ℚ := -42.379
def C2 : ℚ := 2.04901523
def C3 : ℚ := 10.14333127
def C4 : ℚ := -0.22475541
def C5 : ℚ := -6.83783e-3
def C6 : ℚ := -5.481717e-2
def C7 : ℚ := 1.22874e-3
def C8 : ℚ := 8.5282e-4
def C9 : ℚ := -1.99e-6

noncomputable section

/-- Embedding of `calculate_wind_chill(temp_f, wind_speed_mph)`:
`None` when either input is `None` or the wind speed is below 3 mph,
otherwise the NWS wind-chill formula rounded by Python `round`. -/
def calculate_wind_chill (temp_f wind_speed_mph : Option ℚ) : Option ℤ :=
  match temp_f, wind_speed_mph with
  | some t, some v =>
    if v < 3 then none
    else some (pyRoundR (35.74 + 0.6215 * (t : ℝ) - 35.75 * (v : ℝ) ^ (0.16 : ℝ)
      + 0.4275 * (t : ℝ) * (v : ℝ) ^ (0.16 : ℝ)))
  | _, _ => none

end

/-- Embedding of `calculate_heat_index(temp_f, humidity)`:
`None` when either input is `None`, otherwise the regression applied to
`H = humidity / 100.0`, rounded by Python `round`.  No range guard. -/
def calculate_heat_index (temp_f humidity : Option ℚ) : Option ℤ :=
  match temp_f, humidity with
  | some t, some hum =>
    let H : ℚ := hum / 100
    some (pyRound (C1 + C2 * t + C3 * H + C4 * t * H +
      C5 * t ^ 2 + C6 * H ^ 2 + C7 * t ^ 2 * H +
      C8 * t * H ^ 2 + C9 * t ^ 2 * H ^ 2))
  | _, _ => none

/-- Heat-index function transcribed from the specification's own wording
(§4.3): `H = humidityPct / 100`, the nine literal coefficients, the
Rothfusz polynomial, rounded to nearest; null iff an input is missing. -/
def heatIndex_spec (tempF humidityPct : Option ℚ) : Option ℤ :=
  match tempF, humidityPct with
  | some T, some hp =>
    let H : ℚ := hp / 100
    some (pyRound ((-42.379) + 2.04901523 * T + 10.14333127 * H
      + (-0.22475541) * T * H + (-6.83783e-3) * T ^ 2 + (-5.481717e-2) * H ^ 2
      + 1.22874e-3 * T ^ 2 * H + 8.5282e-4 * T * H ^ 2 + (-1.99e-6) * T ^ 2 * H ^ 2))
  | _, _ => none

/-- Embedding of the `real_feel` blending cascade in `home`'s loop:
average of wind chill and heat index when both are present, the single
present one otherwise, and the raw temperature when both are absent. -/
def real_feel_blend (temp_f : Option ℚ) (wind_chill heat_index : Option ℤ) : Option ℚ :=
  match wind_chill, heat_index with
  | some wc, some hi => some ((pyRound (((wc : ℚ) + (hi : ℚ)) / 2) : ℤ) : ℚ)
  | some wc, none => some ((wc : ℚ))
  | none, some hi => some ((hi : ℚ))
  | none, none => temp_f

/-- When `q` lies strictly between `n - 1/2` and `n + 1/2`, Python rounding gives `n`. -/
theorem pyRound_eq_of_bounds (q : ℚ) (n : ℤ) (h1 : (n : ℚ) - 1/2 < q)
    (h2 : q < (n : ℚ) + 1/2) : pyRound q = n := by
  unfold pyRound
  rcases lt_or_le q n with hx | hx
  · have hfl : ⌊q⌋ = n - 1 := by
      apply Int.floor_eq_iff.mpr
      constructor
      · push_cast; linarith
      · push_cast; linarith
    rw [hfl]
    have hgt : 1/2 < q - ((n : ℤ) - 1 : ℤ) := by push_cast; linarith
    have hnlt : ¬ (q - ((n : ℤ) - 1 : ℤ) < 1/2) := by push_cast at hgt ⊢; linarith
    simp only [hnlt, if_false, hgt, if_true]
    omega
  · have hfl : ⌊q⌋ = n := by
      apply Int.floor_eq_iff.mpr
      constructor
      · linarith
      · linarith
    rw [hfl]
    have hlt : q - (n : ℤ) < 1/2 := by linarith
    simp only [hlt, if_true]

/-! String helpers.  Python string primitives used by `app.py` (`str.replace`,
`str.strip`, `str.split`, `str.isdigit`, `int(...)`) are modelled on `List Char`
with structural recursion so that concrete runs reduce inside the kernel. -/

/-- Replacement performed by `get_value` on strings: `value.replace("\n", " ")`. -/
def nl2sp (c : Char) : Char := if c = '\n' then ' ' else c

/-- Python's `str.strip()`: drop leading and trailing whitespace. -/
def pyStrip (l : List Char) : List Char :=
  ((l.dropWhile Char.isWhitespace).reverse.dropWhile Char.isWhitespace).reverse

/-- Normalisation `get_value` applies to every string field:
`value.replace("\n", " ").strip()`. -/
def normalize (s : String) : String := String.mk (pyStrip (s.data.map nl2sp))

/-- Accumulator-based splitting of a character list into maximal runs of
non-whitespace characters, as Python's argumentless `str.split()` does. -/
def wordsAux : List Char → List Char → List (List Char)
  | [], acc => if acc.isEmpty then [] else [acc.reverse]
  | c :: cs, acc =>
    if c.isWhitespace then
      if acc.isEmpty then wordsAux cs [] else acc.reverse :: wordsAux cs []
    else wordsAux cs (c :: acc)

/-- Python's `s.split()` (split on whitespace, discarding empty tokens). -/
def pySplit (s : String) : List String := (wordsAux s.data []).map String.mk

/-- Python's `s.replace("&nbsp;", " ")`: left-to-right, non-overlapping. -/
def replaceNbspL : List Char → List Char
  | '&' :: 'n' :: 'b' :: 's' :: 'p' :: ';' :: cs => ' ' :: replaceNbspL cs
  | c :: cs => c :: replaceNbspL cs
  | [] => []

/-- String-level wrapper for `replaceNbspL`. -/
def replaceNbspS (s : String) : String := String.mk (replaceNbspL s.data)

/-- Python's `str.isdigit` restricted to ASCII: non-empty and all digits. -/
def pyIsdigit (t : String) : Bool := !t.data.isEmpty && t.data.all Char.isDigit

/-- Value of `int(t)` for a string of ASCII digits. -/
def natOfDigits (t : String) : ℕ := t.data.foldl (fun a c => 10 * a + (c.toNat - 48)) 0

/-- Embedding of the wind-speed parse in `home`'s loop:
`int(wind_speed.split()[0]) if wind_speed and wind_speed.split()[0].isdigit() else None`,
where `wind_speed` is the `get_value`-normalised text. -/
def parse_wind (rawWs : Option String) : Option ℕ :=
  match rawWs with
  | none => none
  | some raw =>
    let s := normalize raw
    if s = "" then none
    else
      match pySplit s with
      | t :: _ => if pyIsdigit t then some (natOfDigits t) else none
      | [] => none

/-- Embedding of the stored wind-speed display string:
`wind_speed.replace("&nbsp;", " ") if wind_speed else ""`. -/
def wind_display (rawWs : Option String) : String :=
  match rawWs with
  | none => ""
  | some raw =>
    let s := normalize raw
    if s = "" then "" else replaceNbspS s

/-! Time handling.  `format_time` in `app.py` calls `datetime.fromisoformat`
and `strftime`.  The parser below models `fromisoformat` restricted to the
offset-aware second-precision form the provider emits
(`YYYY-MM-DDTHH:MM:SS±HH:MM`); every other string is a parse error, as
`fromisoformat` raises `ValueError` on malformed input. -/

/-- Components of a parsed timestamp that `format_time` reads. -/
structure DT where
  year : ℕ
  month : ℕ
  day : ℕ
  hour : ℕ
deriving DecidableEq

/-- Gregorian leap-year test. -/
def isLeap (y : ℕ) : Bool := y % 4 == 0 && (y % 100 != 0 || y % 400 == 0)

/-- Number of days in a month, as validated by `datetime`. -/
def daysInMonth (y m : ℕ) : ℕ :=
  if m = 2 then (if isLeap y then 29 else 28)
  else if m = 4 ∨ m = 6 ∨ m = 9 ∨ m = 11 then 30
  else 31

/-- Numeric value of an ASCII digit character. -/
def d2n (c : Char) : ℕ := c.toNat - 48

/-- Two-digit decimal field. -/
def val2 (a b : Char) : ℕ := 10 * d2n a + d2n b

/-- Four-digit decimal field. -/
def val4 (a b c d : Char) : ℕ := 1000 * d2n a + 100 * d2n b + 10 * d2n c + d2n d

/-- Model of `datetime.fromisoformat` on `YYYY-MM-DDTHH:MM:SS±HH:MM` strings,
validating digit positions and field ranges; anything else is an error. -/
def parse_iso (s : String) : Except String DT :=
  match s.data with
  | [y1, y2, y3, y4, '-', m1, m2, '-', d1, d2c, 'T', h1, h2, ':', n1, n2, ':',
     s1, s2, sg, o1, o2, ':', p1, p2] =>
    if ([y1, y2, y3, y4, m1, m2, d1, d2c, h1, h2, n1, n2, s1, s2, o1, o2, p1, p2].all
          Char.isDigit) = true ∧
       (sg = '+' ∨ sg = '-') ∧
       1 ≤ val2 m1 m2 ∧ val2 m1 m2 ≤ 12 ∧
       1 ≤ val2 d1 d2c ∧ val2 d1 d2c ≤ daysInMonth (val4 y1 y2 y3 y4) (val2 m1 m2) ∧
       val2 h1 h2 ≤ 23 ∧ val2 n1 n2 ≤ 59 ∧ val2 s1 s2 ≤ 59 ∧
       val2 o1 o2 ≤ 23 ∧ val2 p1 p2 ≤ 59 then
      .ok ⟨val4 y1 y2 y3 y4, val2 m1 m2, val2 d1 d2c, val2 h1 h2⟩
    else .error ("Invalid isoformat string: " ++ s)
  | _ => .error ("Invalid isoformat string: " ++ s)

/-- Rendering of `dt.strftime("%I %p").lstrip("0")`: 12-hour clock value with
`AM`/`PM`, the leading zero of a one-digit hour stripped. -/
def fmt12 (h : ℕ) : String :=
  let h12 := if h % 12 = 0 then 12 else h % 12
  (if h12 < 10 then String.mk [Nat.digitChar h12]
   else String.mk [Nat.digitChar (h12 / 10), Nat.digitChar (h12 % 10)]) ++
  (if h < 12 then " AM" else " PM")

/-- Zero-padded two-digit rendering used by `strftime("%m/%d")`. -/
def two_digit (n : ℕ) : String := String.mk [Nat.digitChar (n / 10), Nat.digitChar (n % 10)]

/-- Embedding of `format_time(start_time, is_first_row)`: parse the timestamp,
format the 12-hour label, and prefix a `MM/DD<br>` date stamp on the first
row or at local midnight.  Parse failures propagate as exceptions. -/
def format_time (start_time : String) (is_first_row : Bool) : Except String String :=
  match parse_iso start_time with
  | .error e => .error e
  | .ok dt =>
    let time_str := fmt12 dt.hour
    let date_str := two_digit dt.month ++ "/" ++ two_digit dt.day
    .ok (if is_first_row || dt.hour == 0 then date_str ++ "<br>" ++ time_str else time_str)

/-! Data model of a provider forecast period and the enriched record the
route builds from it. -/

/-- Shape of a numeric provider field: absent (`period.get` returns `None`),
a plain number, or a `{"value": ...}` wrapper holding a number or `null`. -/
inductive NumF where
  | absent : NumF
  | num : ℚ → NumF
  | wrapped : Option ℚ → NumF
deriving DecidableEq

/-- Embedding of `get_value` on numeric fields: unwrap a `{"value": ...}`
wrapper (rounding a non-null wrapped value when `round_to_int` is set) and
pass plain numbers and `None` through. -/
def get_value_num (v : NumF) (round_to_int : Bool) : Option ℚ :=
  match v with
  | .absent => none
  | .num q => some q
  | .wrapped none => none
  | .wrapped (some q) => if round_to_int then some ((pyRound q : ℤ) : ℚ) else some q

/-- Raw forecast period as consumed by `home`'s loop.  `windSpeed` is the
free-text field and `startTime` is the raw timestamp string; a missing
`startTime` models a `KeyError` when the loop reads `period['startTime']`. -/
structure RawPeriod where
  startTime : Option String
  temperature : NumF
  relativeHumidity : NumF
  windSpeed : Option String
  dewpoint : NumF
  probabilityOfPrecipitation : NumF
deriving DecidableEq

/-- Forecast period after `home`'s loop has mutated it: the four derived
metrics stored as display strings, the wind-speed text replaced by its
display form, and the rounded precipitation probability added. -/
structure EnrichedPeriod where
  startTime : Option String
  temperature : NumF
  relativeHumidity : NumF
  realFeel : String
  windChill : String
  heatIndex : String
  dewpoint : String
  windSpeed : String
  precipitationProbability : Option ℚ
deriving DecidableEq

/-- Display string of an optional derived integer:
`f"{x}°F" if x is not None else ""`. -/
def optDeg : Option ℤ → String
  | some z => Int.repr z ++ "°F"
  | none => ""

/-- Python `f"{x}"` applied to the real-feel value:  `None` renders as
`"None"`, an integral value in decimal.  (A non-integral rational is
rendered as `num/den`; Python would print a float's decimal form, a case
no integral provider datum produces.) -/
def pyFormatVal : Option ℚ → String
  | none => "None"
  | some q => if q.den = 1 then Int.repr q.num else Int.repr q.num ++ "/" ++ Nat.repr q.den

noncomputable section

/-- Embedding of one iteration of `home`'s enrichment loop on a single
period: extract the fields through `get_value`, parse the wind speed,
derive dewpoint °F, wind chill, heat index and real feel, store the
display strings, and produce the chart label (via `format_time` with the
default `is_first_row=False`) and chart value.  A missing `startTime`
models the `KeyError` of `period['startTime']`; a malformed one the
`ValueError` of `datetime.fromisoformat`.  Either aborts the request. -/
def enrichPeriod (p : RawPeriod) : Except String (EnrichedPeriod × String × Option ℚ) :=
  let temp_f := get_value_num p.temperature false
  let humidity := get_value_num p.relativeHumidity false
  let wind_speed_mph := parse_wind p.windSpeed
  let dewpoint_c := get_value_num p.dewpoint false
  let dewpoint_f := dewpoint_c.map (fun c => pyRound (c * 9 / 5 + 32))
  let wind_chill := calculate_wind_chill temp_f (wind_speed_mph.map (fun n : ℕ => (n : ℚ)))
  let heat_index := calculate_heat_index temp_f humidity
  let real_feel := real_feel_blend temp_f wind_chill heat_index
  match p.startTime with
  | none => .error "KeyError: startTime"
  | some st =>
    match format_time st false with
    | .error e => .error e
    | .ok label =>
      .ok ({ startTime := some st
             temperature := p.temperature
             relativeHumidity := p.relativeHumidity
             realFeel := pyFormatVal real_feel ++ "°F"
             windChill := optDeg wind_chill
             heatIndex := optDeg heat_index
             dewpoint := optDeg dewpoint_f
             windSpeed := wind_display p.windSpeed
             precipitationProbability := get_value_num p.probabilityOfPrecipitation true },
           label, real_feel)

/-- Embedding of `home`'s `for period in hourly_forecast` loop: enrich each
period in order, aborting at the first exception, collecting the triple of
enriched record, chart label and chart real-feel value per period. -/
def enrichAll : List RawPeriod → Except String (List (EnrichedPeriod × String × Option ℚ))
  | [] => .ok []
  | p :: ps =>
    match enrichPeriod p with
    | .error e => .error e
    | .ok t =>
      match enrichAll ps with
      | .error e => .error e
      | .ok ts => .ok (t :: ts)

/-- Embedding of `get_hourly_forecast()`: the argument stands for the outcome
of the two provider calls plus JSON field extraction — `.error` when any of
them raises, `.ok l` when they produced the ordered period list `l`.  The
function catches every exception and returns `[]`, and otherwise keeps only
the first 24 periods (`[:24]`). -/
def get_hourly_forecast (fetch : Except String (List RawPeriod)) : List RawPeriod :=
  match fetch with
  | .error _ => []
  | .ok l => l.take 24

/-- Theme selection: `"dark" if current_hour >= 19 or current_hour < 6 else "light"`. -/
def themeOf (hour : ℕ) : String := if 19 ≤ hour ∨ hour < 6 then "dark" else "light"

/-- Observable outcome of the root route: a rendered page (HTTP 200) carrying
the enriched period rows and the two parallel chart series, or the
plain-text error body produced by `home`'s `except` clause. -/
inductive Response where
  | page : String → List EnrichedPeriod → List String → List (Option ℚ) → Response
  | errorText : String → Response
deriving DecidableEq

/-- Embedding of the route handler `home()`.  `fetch` abstracts the provider
interaction (consumed by `get_hourly_forecast`, which never raises), and
`clock` the `datetime.now(est)` call inside the `try` block: if it raises,
the `except` clause returns the error body.  The enrichment loop runs
outside the `try`; an exception there (`.error`) escapes the handler. -/
def home (fetch : Except String (List RawPeriod)) (clock : Except String ℕ) :
    Except String Response :=
  match clock with
  | .error e => .ok (.errorText ("Error fetching weather data: " ++ e))
  | .ok hour =>
    match enrichAll (get_hourly_forecast fetch) with
    | .error e => .error e
    | .ok triples =>
      .ok (.page (themeOf hour) (triples.map (fun t => t.1))
        (triples.map (fun t => t.2.1)) (triples.map (fun t => t.2.2)))

end

/-- Period with a valid timestamp and every weather field absent. -/
def periodAllAbsent : RawPeriod :=
  { startTime := some "2024-01-15T13:00:00-05:00"
    temperature := .absent
    relativeHumidity := .absent
    windSpeed := none
    dewpoint := .absent
    probabilityOfPrecipitation := .absent }

/-- Enriched record the loop produces from `periodAllAbsent`. -/
def enrichedAllAbsent : EnrichedPeriod :=
  { startTime := some "2024-01-15T13:00:00-05:00"
    temperature := .absent
    relativeHumidity := .absent
    realFeel := "None°F"
    windChill := ""
    heatIndex := ""
    dewpoint := ""
    windSpeed := ""
    precipitationProbability := none }

/-- Period whose `startTime` is not a valid ISO-8601 timestamp. -/
def periodBadTime : RawPeriod :=
  { startTime := some "garbage"
    temperature := .absent
    relativeHumidity := .absent
    windSpeed := none
    dewpoint := .absent
    probabilityOfPrecipitation := .absent }

/-! Inversion lemmas for the route model. -/

/-- A successful loop run produces one triple per input period. -/
theorem enrichAll_ok_length (l : List RawPeriod)
    (ts : List (EnrichedPeriod × String × Option ℚ)) (h : enrichAll l = .ok ts) :
    ts.length = l.length := by
  induction l generalizing ts with
  | nil =>
    simp only [enrichAll] at h
    cases h
    rfl
  | cons p ps ih =>
    simp only [enrichAll] at h
    cases hp : enrichPeriod p with
    | error e => rw [hp] at h; cases h
    | ok t =>
      rw [hp] at h
      cases hps : enrichAll ps with
      | error e => rw [hps] at h; cases h
      | ok ts' =>
        rw [hps] at h
        cases h
        simp [ih ts' hps]

/-- Every triple of a successful loop run comes from enriching some input period. -/
theorem enrichAll_ok_mem (l : List RawPeriod)
    (ts : List (EnrichedPeriod × String × Option ℚ)) (h : enrichAll l = .ok ts) :
    ∀ t ∈ ts, ∃ p ∈ l, enrichPeriod p = .ok t := by
  induction l generalizing ts with
  | nil =>
    simp only [enrichAll] at h
    cases h
    intro t ht
    cases ht
  | cons p ps ih =>
    simp only [enrichAll] at h
    cases hp : enrichPeriod p with
    | error e => rw [hp] at h; cases h
    | ok t0 =>
      rw [hp] at h
      cases hps : enrichAll ps with
      | error e => rw [hps] at h; cases h
      | ok ts' =>
        rw [hps] at h
        cases h
        intro t ht
        rcases List.mem_cons.mp ht with rfl | hmem
        · exact ⟨p, List.mem_cons_self p ps, hp⟩
        · rcases ih ts' hps t hmem with ⟨p', hp', hok'⟩
          exact ⟨p', List.mem_cons_of_mem p hp', hok'⟩

/-- Re-zipping the three projections of a triple list recovers the list. -/
theorem zip_map_triple {α β γ : Type} (ts : List (α × β × γ)) :
    (ts.map (fun t => t.1)).zip ((ts.map (fun t => t.2.1)).zip (ts.map (fun t => t.2.2)))
      = ts := by
  induction ts with
  | nil => rfl
  | cons t ts ih => simp [List.zip_cons_cons, ih]

/-- Inversion of a successful page response: the rows, labels and values are
the three projections of a successful loop run over the retained periods,
and the theme comes from the clock hour. -/
theorem home_ok_inversion (l : List RawPeriod) (h : ℕ) (θ : String)
    (rows : List EnrichedPeriod) (labels : List String) (vals : List (Option ℚ))
    (hok : home (.ok l) (.ok h) = .ok (.page θ rows labels vals)) :
    ∃ ts, enrichAll (l.take 24) = .ok ts ∧ θ = themeOf h ∧
      rows = ts.map (fun t => t.1) ∧ labels = ts.map (fun t => t.2.1) ∧
      vals = ts.map (fun t => t.2.2) := by
  simp only [home, get_hourly_forecast] at hok
  cases hea : enrichAll (l.take 24) with
  | error e => rw [hea] at hok; cases hok
  | ok ts =>
    rw [hea] at hok
    injection hok with hpage
    injection hpage with h1 h2 h3 h4
    exact ⟨ts, rfl, h1.symm, h2.symm, h3.symm, h4.symm⟩

/-- Inversion of a successful enrichment of one period: the timestamp was
present and parseable, and every stored field is determined by the source
expressions. -/
theorem enrichPeriod_ok_inversion (p : RawPeriod) (e : EnrichedPeriod)
    (lab : String) (v : Option ℚ) (hok : enrichPeriod p = .ok (e, lab, v)) :
    ∃ st, p.startTime = some st ∧ format_time st false = .ok lab ∧
      v = real_feel_blend (get_value_num p.temperature false)
        (calculate_wind_chill (get_value_num p.temperature false)
          ((parse_wind p.windSpeed).map (fun n : ℕ => (n : ℚ))))
        (calculate_heat_index (get_value_num p.temperature false)
          (get_value_num p.relativeHumidity false)) ∧
      e = { startTime := some st
            temperature := p.temperature
            relativeHumidity := p.relativeHumidity
            realFeel := pyFormatVal v ++ "°F"
            windChill := optDeg (calculate_wind_chill (get_value_num p.temperature false)
              ((parse_wind p.windSpeed).map (fun n : ℕ => (n : ℚ))))
            heatIndex := optDeg (calculate_heat_index (get_value_num p.temperature false)
              (get_value_num p.relativeHumidity false))
            dewpoint := optDeg ((get_value_num p.dewpoint false).map
              (fun c => pyRound (c * 9 / 5 + 32)))
            windSpeed := wind_display p.windSpeed
            precipitationProbability := get_value_num p.probabilityOfPrecipitation true } := by
  simp only [enrichPeriod] at hok
  split at hok
  · cases hok
  next st hst =>
    split at hok
    · cases hok
    next lab' hft =>
      injection hok with hprod
      injection hprod with he hrest
      injection hrest with hlab hv
      subst he hlab hv
      exact ⟨st, hst, hft, rfl, rfl⟩

/-- The blended real feel is an integer unless both derived metrics are
null, in which case it is the raw temperature. -/
theorem real_feel_blend_int_or_temp (tf : Option ℚ) (wc hi : Option ℤ) :
    (∃ z : ℤ, real_feel_blend tf wc hi = some ((z : ℚ))) ∨
      real_feel_blend tf wc hi = tf := by
  cases wc with
  | some a =>
    cases hi with
    | some b => exact Or.inl ⟨pyRound (((a : ℚ) + (b : ℚ)) / 2), rfl⟩
    | none => exact Or.inl ⟨a, rfl⟩
  | none =>
    cases hi with
    | some b => exact Or.inl ⟨b, rfl⟩
    | none => exact Or.inr rfl

/-! Tokenisation is unchanged by `get_value`'s normalisation: replacing
newlines by spaces and stripping outer whitespace never alters the list of
whitespace-delimited tokens. -/

/-- Replacing `'\n'` by `' '` leaves `wordsAux` unchanged. -/
theorem wordsAux_map_nl2sp (l : List Char) :
    ∀ acc, wordsAux (l.map nl2sp) acc = wordsAux l acc := by
  induction l with
  | nil => intro acc; rfl
  | cons c cs ih =>
    intro acc
    by_cases hc : c = '\n'
    · subst hc
      have hsp : nl2sp '\n' = ' ' := rfl
      simp only [List.map_cons, hsp, wordsAux]
      have h1 : (' ').isWhitespace = true := rfl
      have h2 : ('\n').isWhitespace = true := rfl
      rw [h1, h2]
      simp only [if_true]
      by_cases hacc : acc.isEmpty <;> simp [hacc, ih]
    · have hnc : nl2sp c = c := by simp [nl2sp, hc]
      simp only [List.map_cons, hnc, wordsAux]
      by_cases hw : c.isWhitespace <;> simp [hw, ih]

/-- Dropping leading whitespace leaves the token list unchanged. -/
theorem wordsAux_dropWhile (l : List Char) :
    wordsAux (l.dropWhile Char.isWhitespace) [] = wordsAux l [] := by
  induction l with
  | nil => rfl
  | cons c cs ih =>
    by_cases hw : c.isWhitespace
    · rw [List.dropWhile_cons_of_pos hw, ih]
      simp [wordsAux, hw]
    · rw [List.dropWhile_cons_of_neg hw]

/-- Appending a trailing whitespace character leaves `wordsAux` unchanged. -/
theorem wordsAux_snoc_ws (c : Char) (hc : c.isWhitespace = true) (l : List Char) :
    ∀ acc, wordsAux (l ++ [c]) acc = wordsAux l acc := by
  induction l with
  | nil =>
    intro acc
    simp only [List.nil_append, wordsAux, hc, if_true]
    by_cases hacc : acc.isEmpty <;> simp [hacc, wordsAux]
  | cons d ds ih =>
    intro acc
    simp only [List.cons_append, wordsAux]
    by_cases hw : d.isWhitespace <;> simp [hw, ih]

/-- Dropping trailing whitespace leaves the token list unchanged. -/
theorem wordsAux_dropTrailing (l : List Char) :
    wordsAux ((l.reverse.dropWhile Char.isWhitespace).reverse) [] = wordsAux l [] := by
  induction l using List.reverseRecOn with
  | nil => rfl
  | append_singleton ys c ih =>
    by_cases hw : c.isWhitespace
    · rw [List.reverse_append]
      simp only [List.reverse_cons, List.reverse_nil, List.nil_append, List.singleton_append]
      rw [List.dropWhile_cons_of_pos hw, ih, wordsAux_snoc_ws c hw]
    · rw [List.reverse_append]
      simp only [List.reverse_cons, List.reverse_nil, List.nil_append, List.singleton_append]
      rw [List.dropWhile_cons_of_neg hw]
      simp [List.reverse_cons]

/-- The normalised wind-speed text splits into exactly the tokens of the
original text. -/
theorem pySplit_normalize (s : String) : pySplit (normalize s) = pySplit s := by
  show (wordsAux (pyStrip (s.data.map nl2sp)) []).map String.mk
    = (wordsAux s.data []).map String.mk
  unfold pyStrip
  rw [wordsAux_dropTrailing, wordsAux_dropWhile, wordsAux_map_nl2sp]

/-! Claim theorems. -/

/-- Unfolding of the heat index at 90 °F and 50 % relative humidity. -/
theorem heat_index_at_90_50 : calculate_heat_index (some 90) (some 50)
    = some (pyRound (C1 + C2 * 90 + C3 * (50/100 : ℚ) + C4 * 90 * (50/100 : ℚ) +
        C5 * 90 ^ 2 + C6 * (50/100 : ℚ) ^ 2 + C7 * 90 ^ 2 * (50/100 : ℚ) +
        C8 * 90 * (50/100 : ℚ) ^ 2 + C9 * 90 ^ 2 * (50/100 : ℚ) ^ 2)) := rfl

/-- Value of the regression at 90 °F / 50 %: the polynomial evaluates to
`86.58147399`, which Python rounds to 87. -/
theorem heat_index_value_90_50 : pyRound (C1 + C2 * 90 + C3 * (50/100 : ℚ) +
    C4 * 90 * (50/100 : ℚ) + C5 * 90 ^ 2 + C6 * (50/100 : ℚ) ^ 2 +
    C7 * 90 ^ 2 * (50/100 : ℚ) + C8 * 90 * (50/100 : ℚ) ^ 2 +
    C9 * 90 ^ 2 * (50/100 : ℚ) ^ 2) = 87 := by
  apply pyRound_eq_of_bounds <;>
    norm_num [C1, C2, C3, C4, C5, C6, C7, C8, C9]

/-- C1 (counterexample): at `tempF = 90`, `humidityPct = 50` the rounded
heat index produced by the code is not 96; dividing the humidity by 100
before applying coefficients calibrated for percent humidity drives the
regression far below the NOAA table value. -/
theorem heat_index_90_50_not_96 : calculate_heat_index (some 90) (some 50) ≠ some 96 := by
  rw [heat_index_at_90_50, heat_index_value_90_50]
  decide

/-- C1 (amended): at `tempF = 90`, `humidityPct = 50` the code's heat index
is 87 (the rounded value of the regression applied to `H = 0.5`). -/
theorem heat_index_90_50_eq_87 : calculate_heat_index (some 90) (some 50) = some 87 := by
  rw [heat_index_at_90_50, heat_index_value_90_50]

/-- C2: when the location resolution or the forecast fetch raises, the caught
exception yields an empty forecast series, and the root route returns a
rendered page (HTTP 200) whose period rows, chart labels and chart values
are all empty — not an escaping exception. -/
theorem fetch_failure_yields_empty_page (e : String) (h : ℕ) :
    get_hourly_forecast (.error e) = [] ∧
    home (.error e) (.ok h) = .ok (.page (themeOf h) [] [] []) := ⟨rfl, rfl⟩

/-- C4: the real-feel blend: rounded average of wind chill and heat index
when both are present (and that rounding is to a nearest integer), the
single present one otherwise, the raw temperature (possibly null) when both
are absent; with the spec's three worked examples. -/
theorem real_feel_policy :
    (∀ (tf : Option ℚ) (wc hi : ℤ), real_feel_blend tf (some wc) (some hi)
        = some (((pyRound (((wc : ℚ) + (hi : ℚ)) / 2) : ℤ) : ℚ))
      ∧ |((wc : ℚ) + (hi : ℚ)) / 2 - ((pyRound (((wc : ℚ) + (hi : ℚ)) / 2) : ℤ) : ℚ)| ≤ 1/2) ∧
    (∀ (tf : Option ℚ) (wc : ℤ), real_feel_blend tf (some wc) none = some ((wc : ℚ))) ∧
    (∀ (tf : Option ℚ) (hi : ℤ), real_feel_blend tf none (some hi) = some ((hi : ℚ))) ∧
    (∀ tf : Option ℚ, real_feel_blend tf none none = tf) ∧
    real_feel_blend (some 72) (some 20) (some 100) = some 60 ∧
    real_feel_blend (some 72) (some 30) none = some 30 ∧
    real_feel_blend (some 72) none none = some 72 := by
  refine ⟨fun tf wc hi => ⟨rfl, pyRound_dist _⟩, fun tf wc => rfl, fun tf hi => rfl,
    fun tf => rfl, ?_, ?_, rfl⟩
  · show some (((pyRound (((20 : ℚ) + (100 : ℚ)) / 2) : ℤ) : ℚ)) = some 60
    have h60 : pyRound (((20 : ℚ) + (100 : ℚ)) / 2) = 60 := by
      apply pyRound_eq_of_bounds <;> norm_num
    rw [h60]; norm_num
  · show some (((30 : ℤ) : ℚ)) = some 30
    norm_num

/-- C5: the code's heat index coincides with the function transcribed from
the spec's formula (same nine coefficients, `H = humidityPct/100`, rounded);
it is null exactly when an input is null, and is applied unconditionally —
any pair of present inputs yields a value, with no validity-range guard. -/
theorem heat_index_matches_spec :
    (∀ t h : Option ℚ, calculate_heat_index t h = heatIndex_spec t h) ∧
    (∀ t h : Option ℚ, calculate_heat_index t h = none ↔ (t = none ∨ h = none)) ∧
    (∀ T hp : ℚ, ∃ z : ℤ, calculate_heat_index (some T) (some hp) = some z) := by
  refine ⟨?_, ?_, ?_⟩
  · intro t h
    cases t with
    | none => cases h <;> rfl
    | some T =>
      cases h with
      | none => rfl
      | some hp =>
        show some (pyRound _) = some (pyRound _)
        congr 1
  · intro t h
    cases t with
    | none => cases h <;> simp [calculate_heat_index]
    | some T => cases h <;> simp [calculate_heat_index]
  · intro T hp
    exact ⟨_, rfl⟩

/-- Bounds on `3 ** 0.16`: raising to the 25th power turns both into
rational comparisons with `3 ^ 4 = 81`. -/
theorem rpow_three_016_bounds :
    (1.19 : ℝ) < (3 : ℝ) ^ (0.16 : ℝ) ∧ (3 : ℝ) ^ (0.16 : ℝ) < 1.2 := by
  have h3 : (0 : ℝ) ≤ 3 := by norm_num
  have hpow : ((3 : ℝ) ^ (0.16 : ℝ)) ^ (25 : ℕ) = 81 := by
    rw [← Real.rpow_natCast ((3 : ℝ) ^ (0.16 : ℝ)) 25, ← Real.rpow_mul h3]
    have h4 : (0.16 : ℝ) * ((25 : ℕ) : ℝ) = ((4 : ℕ) : ℝ) := by norm_num
    rw [h4, Real.rpow_natCast]
    norm_num
  have hpos : (0 : ℝ) ≤ (3 : ℝ) ^ (0.16 : ℝ) := Real.rpow_nonneg h3 _
  constructor
  · apply lt_of_pow_lt_pow_left₀ 25 hpos
    rw [hpow]
    norm_num
  · apply lt_of_pow_lt_pow_left₀ 25 (by norm_num : (0 : ℝ) ≤ 1.2)
    rw [hpow]
    norm_num

/-- Unfolding of the wind chill at 0 °F and exactly 3 mph. -/
theorem wind_chill_at_0_3 : calculate_wind_chill (some 0) (some 3)
    = some (pyRoundR (35.74 + 0.6215 * (((0 : ℚ)) : ℝ) - 35.75 * (((3 : ℚ)) : ℝ) ^ (0.16 : ℝ)
      + 0.4275 * (((0 : ℚ)) : ℝ) * (((3 : ℚ)) : ℝ) ^ (0.16 : ℝ))) := by
  simp only [calculate_wind_chill]
  rw [if_neg (lt_irrefl (3 : ℚ))]

/-- C3: `calculate_wind_chill` is null exactly when the temperature is null,
the wind speed is null, or the wind speed is below 3 mph; otherwise it is the
NWS formula rounded by Python `round`; at `tempF = 0`, `windSpeedMph = 3` it
equals the rounded value of `35.74 − 35.75·3^0.16`, namely `-7`. -/
theorem wind_chill_contract :
    (∀ t v : Option ℚ, calculate_wind_chill t v = none ↔
      (t = none ∨ v = none ∨ ∃ q : ℚ, v = some q ∧ q < 3)) ∧
    (∀ T v : ℚ, calculate_wind_chill (some T) (some v) =
      if v < 3 then none
      else some (pyRoundR (35.74 + 0.6215 * (T : ℝ) - 35.75 * (v : ℝ) ^ (0.16 : ℝ)
        + 0.4275 * (T : ℝ) * (v : ℝ) ^ (0.16 : ℝ)))) ∧
    calculate_wind_chill (some 0) (some 3)
      = some (pyRoundR ((35.74 : ℝ) - 35.75 * (3 : ℝ) ^ (0.16 : ℝ))) ∧
    calculate_wind_chill (some 0) (some 3) = some (-7) := by
  have harg : 35.74 + 0.6215 * (((0 : ℚ)) : ℝ) - 35.75 * (((3 : ℚ)) : ℝ) ^ (0.16 : ℝ)
      + 0.4275 * (((0 : ℚ)) : ℝ) * (((3 : ℚ)) : ℝ) ^ (0.16 : ℝ)
      = (35.74 : ℝ) - 35.75 * (3 : ℝ) ^ (0.16 : ℝ) := by
    push_cast
    ring
  refine ⟨?_, fun T v => rfl, ?_, ?_⟩
  · intro t v
    cases t with
    | none => cases v <;> simp [calculate_wind_chill]
    | some T =>
      cases v with
      | none => simp [calculate_wind_chill]
      | some q =>
        by_cases hq : q < 3 <;> simp [calculate_wind_chill, hq]
  · rw [wind_chill_at_0_3, harg]
  · rw [wind_chill_at_0_3, harg]
    have hval : pyRoundR ((35.74 : ℝ) - 35.75 * (3 : ℝ) ^ (0.16 : ℝ)) = -7 := by
      apply pyRoundR_eq_of_bounds
      · push_cast
        linarith [rpow_three_016_bounds.2]
      · push_cast
        linarith [rpow_three_016_bounds.1]
    rw [hval]

/-- C6: whenever the route renders a page from a provider list of `N`
periods, the enriched rows and both chart series have exactly `min N 24`
entries, and they are, position by position, the loop's output on the first
24 periods in provider order. -/
theorem retained_series_truncated (l : List RawPeriod) (h : ℕ) (θ : String)
    (rows : List EnrichedPeriod) (labels : List String) (vals : List (Option ℚ))
    (hok : home (.ok l) (.ok h) = .ok (.page θ rows labels vals)) :
    rows.length = min l.length 24 ∧ labels.length = min l.length 24 ∧
    vals.length = min l.length 24 ∧
    enrichAll (l.take 24) = .ok (rows.zip (labels.zip vals)) := by
  obtain ⟨ts, hts, hθ, hr, hl, hv⟩ := home_ok_inversion l h θ rows labels vals hok
  have hlen : ts.length = (l.take 24).length := enrichAll_ok_length _ _ hts
  have htake : (l.take 24).length = min l.length 24 := by
    rw [List.length_take]
    omega
  subst hr hl hv
  refine ⟨?_, ?_, ?_, ?_⟩
  · rw [List.length_map, hlen, htake]
  · rw [List.length_map, hlen, htake]
  · rw [List.length_map, hlen, htake]
  · rw [zip_map_triple, hts]

/-- C6 (witness): a 40-period provider response yields exactly 24 rows. -/
theorem retained_series_truncated_witness :
    (List.replicate 24 enrichedAllAbsent).length
      = min (List.replicate 40 periodAllAbsent).length 24 :=
  (retained_series_truncated (List.replicate 40 periodAllAbsent) 12 "light"
    (List.replicate 24 enrichedAllAbsent) (List.replicate 24 "1 PM")
    (List.replicate 24 (none : Option ℚ)) rfl).1

/-- C7 (counterexample): a period whose temperature, wind and humidity are
all missing has a null real feel, yet its stored `realFeel` display string
is `"None°F"`, not the empty string. -/
theorem real_feel_display_not_empty :
    enrichPeriod periodAllAbsent = .ok (enrichedAllAbsent, "1 PM", none) ∧
    enrichedAllAbsent.realFeel = "None°F" ∧ ¬ enrichedAllAbsent.realFeel = "" :=
  ⟨rfl, rfl, by decide⟩

/-- C7 (amended): on every successfully enriched period, `windChill`,
`heatIndex` and `dewpoint` are stored as `"<int>°F"` when the derived value
is non-null and as `""` when it is null; `realFeel` is stored as `"<int>°F"`
when non-null but as `"None°F"` when null. -/
theorem display_strings_amended (p : RawPeriod) (e : EnrichedPeriod) (lab : String)
    (v : Option ℚ) (hok : enrichPeriod p = .ok (e, lab, v)) :
    (∀ z : ℤ, calculate_wind_chill (get_value_num p.temperature false)
        ((parse_wind p.windSpeed).map (fun n : ℕ => (n : ℚ))) = some z →
      e.windChill = Int.repr z ++ "°F") ∧
    (calculate_wind_chill (get_value_num p.temperature false)
        ((parse_wind p.windSpeed).map (fun n : ℕ => (n : ℚ))) = none → e.windChill = "") ∧
    (∀ z : ℤ, calculate_heat_index (get_value_num p.temperature false)
        (get_value_num p.relativeHumidity false) = some z →
      e.heatIndex = Int.repr z ++ "°F") ∧
    (calculate_heat_index (get_value_num p.temperature false)
        (get_value_num p.relativeHumidity false) = none → e.heatIndex = "") ∧
    (∀ z : ℤ, (get_value_num p.dewpoint false).map (fun c => pyRound (c * 9 / 5 + 32))
        = some z → e.dewpoint = Int.repr z ++ "°F") ∧
    ((get_value_num p.dewpoint false).map (fun c => pyRound (c * 9 / 5 + 32)) = none →
      e.dewpoint = "") ∧
    (∀ z : ℤ, v = some ((z : ℚ)) → e.realFeel = Int.repr z ++ "°F") ∧
    (v = none → e.realFeel = "None°F") := by
  obtain ⟨st, hst, hft, hv, he⟩ := enrichPeriod_ok_inversion p e lab v hok
  subst he
  refine ⟨?_, ?_, ?_, ?_, ?_, ?_, ?_, ?_⟩
  · intro z hz
    show optDeg _ = _
    rw [hz]
    rfl
  · intro hz
    show optDeg _ = _
    rw [hz]
    rfl
  · intro z hz
    show optDeg _ = _
    rw [hz]
    rfl
  · intro hz
    show optDeg _ = _
    rw [hz]
    rfl
  · intro z hz
    show optDeg _ = _
    rw [hz]
    rfl
  · intro hz
    show optDeg _ = _
    rw [hz]
    rfl
  · intro z hz
    show pyFormatVal v ++ "°F" = _
    rw [hz]
    simp [pyFormatVal, Rat.den_intCast, Rat.num_intCast]
  · intro hz
    show pyFormatVal v ++ "°F" = _
    rw [hz]
    rfl

/-- C7 (amended, witness): the all-absent period stores `"None°F"`. -/
theorem display_strings_amended_witness : enrichedAllAbsent.realFeel = "None°F" :=
  (display_strings_amended periodAllAbsent enrichedAllAbsent "1 PM" none
    rfl).2.2.2.2.2.2.2 rfl

/-- C8 (counterexample): for the request serving one period with a missing
temperature (and no wind chill or heat index), the chart's real-feel array
holds a null entry, so not every entry is an integer. -/
theorem chart_value_not_integer :
    ¬ (∀ (θ : String) (rows : List EnrichedPeriod) (labels : List String)
        (vals : List (Option ℚ)),
        home (.ok [periodAllAbsent]) (.ok 12) = .ok (.page θ rows labels vals) →
        ∀ v ∈ vals, ∃ z : ℤ, v = some ((z : ℚ))) := by
  intro hcl
  have h := hcl "light" [enrichedAllAbsent] ["1 PM"] [none] rfl none
    (List.mem_singleton.mpr rfl)
  rcases h with ⟨z, hz⟩
  exact Option.noConfusion hz

/-- C8 (amended): the chart's labels and real-feel arrays have equal length,
one entry per retained period in provider order (they re-zip with the rows
to the loop output); every real-feel entry is an integer except when the
period's wind chill and heat index are both null, in which case it is the
period's raw temperature and may be null. -/
theorem chart_series_amended (l : List RawPeriod) (h : ℕ) (θ : String)
    (rows : List EnrichedPeriod) (labels : List String) (vals : List (Option ℚ))
    (hok : home (.ok l) (.ok h) = .ok (.page θ rows labels vals)) :
    labels.length = vals.length ∧ rows.length = vals.length ∧
    enrichAll (l.take 24) = .ok (rows.zip (labels.zip vals)) ∧
    ∀ v ∈ vals, (∃ z : ℤ, v = some ((z : ℚ))) ∨
      ∃ p ∈ l.take 24, v = get_value_num p.temperature false := by
  obtain ⟨ts, hts, hθ, hr, hl, hv⟩ := home_ok_inversion l h θ rows labels vals hok
  subst hr hl hv
  refine ⟨by simp, by simp, by rw [zip_map_triple, hts], ?_⟩
  intro v hvmem
  rcases List.mem_map.mp hvmem with ⟨⟨e, lab, vv⟩, htmem, rfl⟩
  rcases enrichAll_ok_mem _ _ hts _ htmem with ⟨p, hpmem, hpok⟩
  obtain ⟨st, hst, hft, hveq, heq⟩ := enrichPeriod_ok_inversion p e lab vv hpok
  rw [hveq]
  rcases real_feel_blend_int_or_temp (get_value_num p.temperature false) _ _ with
    ⟨z, hz⟩ | htemp
  · exact Or.inl ⟨z, by rw [← hveq, hveq, hz]⟩
  · exact Or.inr ⟨p, hpmem, by rw [htemp]⟩

/-- C8 (amended, witness): the singleton run has equal-length chart arrays. -/
theorem chart_series_amended_witness :
    (["1 PM"] : List String).length = ([(none : Option ℚ)]).length :=
  (chart_series_amended [periodAllAbsent] 12 "light" [enrichedAllAbsent]
    ["1 PM"] [none] rfl).1

/-- C9 (counterexample): the stored wind-speed display string is not the
original text with only `&nbsp;` normalised — leading whitespace is
stripped and the newline becomes a space. -/
theorem wind_display_not_verbatim :
    wind_display (some " 10\nmph") = "10 mph" ∧
    ¬ wind_display (some " 10\nmph") = replaceNbspS " 10\nmph" :=
  ⟨rfl, by decide⟩

/-- C9 (amended): the parsed wind speed is the leading whitespace-delimited
token's integer value when that token is all digits, and null when the text
is absent, empty, tokenless, or its leading token is not purely numeric;
the display string is the text with newlines replaced by spaces, outer
whitespace stripped, and `&nbsp;` sequences replaced by plain spaces
(empty for absent text). -/
theorem wind_parse_display_amended :
    parse_wind none = none ∧
    (∀ (s t : String) (ts : List String), pySplit s = t :: ts → pyIsdigit t = true →
      parse_wind (some s) = some (natOfDigits t)) ∧
    (∀ (s t : String) (ts : List String), pySplit s = t :: ts → pyIsdigit t = false →
      parse_wind (some s) = none) ∧
    (∀ s : String, pySplit s = [] → parse_wind (some s) = none) ∧
    (∀ s : String, wind_display (some s) = replaceNbspS (normalize s)) ∧
    wind_display none = "" := by
  refine ⟨rfl, ?_, ?_, ?_, ?_, rfl⟩
  · intro s t ts hsplit hdig
    have hns : pySplit (normalize s) = t :: ts := by rw [pySplit_normalize, hsplit]
    have hne : ¬ normalize s = "" := by
      intro h0
      have hemp : pySplit (normalize s) = [] := by rw [h0]; rfl
      rw [hemp] at hns
      cases hns
    show (if normalize s = "" then none
          else match pySplit (normalize s) with
               | t :: _ => if pyIsdigit t then some (natOfDigits t) else none
               | [] => none) = some (natOfDigits t)
    rw [if_neg hne, hns]
    simp [hdig]
  · intro s t ts hsplit hdig
    have hns : pySplit (normalize s) = t :: ts := by rw [pySplit_normalize, hsplit]
    by_cases hne : normalize s = ""
    · show (if normalize s = "" then none
            else match pySplit (normalize s) with
                 | t :: _ => if pyIsdigit t then some (natOfDigits t) else none
                 | [] => none) = none
      rw [if_pos hne]
    · show (if normalize s = "" then none
            else match pySplit (normalize s) with
                 | t :: _ => if pyIsdigit t then some (natOfDigits t) else none
                 | [] => none) = none
      rw [if_neg hne, hns]
      simp [hdig]
  · intro s hsplit
    have hns : pySplit (normalize s) = [] := by rw [pySplit_normalize, hsplit]
    by_cases hne : normalize s = ""
    · show (if normalize s = "" then none
            else match pySplit (normalize s) with
                 | t :: _ => if pyIsdigit t then some (natOfDigits t) else none
                 | [] => none) = none
      rw [if_pos hne]
    · show (if normalize s = "" then none
            else match pySplit (normalize s) with
                 | t :: _ => if pyIsdigit t then some (natOfDigits t) else none
                 | [] => none) = none
      rw [if_neg hne, hns]
  · intro s
    by_cases h0 : normalize s = ""
    · show (if normalize s = "" then "" else replaceNbspS (normalize s))
        = replaceNbspS (normalize s)
      rw [if_pos h0, h0]
      rfl
    · show (if normalize s = "" then "" else replaceNbspS (normalize s))
        = replaceNbspS (normalize s)
      rw [if_neg h0]

/-- C9 (amended, witness): `"10 mph"` parses to 10. -/
theorem wind_parse_display_amended_witness : parse_wind (some "10 mph") = some 10 := by
  have h := wind_parse_display_amended.2.1 "10 mph" "10" ["mph"] (by decide) (by decide)
  exact h.trans (by decide)

/-- C10 (counterexample): a provider payload that fetches successfully but
contains a malformed `startTime` makes the enrichment loop — which runs
outside the `try`/`except` — raise, so the route terminates with an
unhandled exception rather than any of the three claimed outcomes. -/
theorem route_unhandled_exception :
    ¬ ∃ r : Response, home (.ok [periodBadTime]) (.ok 12) = .ok r := by
  rintro ⟨r, hr⟩
  have h2 : home (.ok [periodBadTime]) (.ok 12)
      = .error "Invalid isoformat string: garbage" := rfl
  rw [h2] at hr
  exact Except.noConfusion hr

/-- C10 (amended): a resolution/fetch exception yields the empty-forecast
page; an exception inside the `try` block's clock/theme computation yields
the plain-text error body; a payload whose retained periods all enrich
successfully yields the rendered page; but there exist payloads whose
enrichment raises, and that exception escapes the handler. -/
theorem route_outcomes_amended :
    (∀ (e : String) (h : ℕ), home (.error e) (.ok h) = .ok (.page (themeOf h) [] [] [])) ∧
    (∀ (f : Except String (List RawPeriod)) (s : String),
      home f (.error s) = .ok (.errorText ("Error fetching weather data: " ++ s))) ∧
    (∀ (l : List RawPeriod) (h : ℕ) ts, enrichAll (l.take 24) = .ok ts →
      home (.ok l) (.ok h) = .ok (.page (themeOf h) (ts.map (fun t => t.1))
        (ts.map (fun t => t.2.1)) (ts.map (fun t => t.2.2)))) ∧
    (∃ (l : List RawPeriod) (h : ℕ) (e : String), home (.ok l) (.ok h) = .error e) := by
  refine ⟨fun e h => rfl, fun f s => rfl, ?_,
    ⟨[periodBadTime], 12, "Invalid isoformat string: garbage", rfl⟩⟩
  intro l h ts hts
  simp only [home, get_hourly_forecast]
  rw [hts]

/-- C10 (amended, witness): a well-formed single-period payload renders. -/
theorem route_outcomes_amended_witness :
    home (.ok [periodAllAbsent]) (.ok 12)
      = .ok (.page "light" [enrichedAllAbsent] ["1 PM"] [none]) :=
  route_outcomes_amended.2.2.1 [periodAllAbsent] 12
    [(enrichedAllAbsent, "1 PM", (none : Option ℚ))] rfl

end WeatherApp
